import Mathlib

/-!
Verification of the in-process learning-session state machine of
`voice-sales-trainer` (`backend/services/claude_learning_service.py` together
with the analyzer glue in `backend/integrations/claude.py`).

Modelling conventions for the shallow embedding:

* Python `float` scores and thresholds are modelled as `ℚ`; every literal that
  the code compares against (2.0, 2.5, 3.0, 3.5, 4.0, 5.0, …) is exactly
  representable, and the arithmetic the code performs (`statistics.mean`,
  subtraction, comparisons) is modelled by exact rational arithmetic.
* Python dicts keyed by the fixed 8-element `AssessmentDimension` enum are
  modelled as total functions out of the enum (the code always populates all 8
  keys for those dicts); dicts with optional string keys are modelled as
  structures with `Option` fields (`none` = key absent).
* `datetime.utcnow()` is modelled by an explicit `now : Nat` argument
  (seconds since the epoch, matching `int(datetime.utcnow().timestamp())`).
* The external Claude API call is the one non-deterministic input of a turn;
  its outcome is passed in explicitly as an `AnalyzerResult` value.
* `statistics.stdev xs` is `Real.sqrt` of the sample variance; to stay inside
  executable rational arithmetic we track its square (the sample variance).
  Since standard deviations are nonnegative, two of them are equal (resp.
  different) exactly when their squares are.
* Fields no claim reads are omitted from the embedded records:
  per-analysis `turn_id` / `processing_time_ms` / `timestamp`, the per-session
  `session_metrics` and `coaching_interactions` bookkeeping, the service-global
  `user_performance` deques, and the static `performance_baseline` entry of
  `adaptive_parameters`.  None of these influence any embedded function.
-/

namespace VoiceSalesTrainer

/-- The 8 performance assessment dimensions
(`AssessmentDimension` enum, `integrations/claude.py`). -/
inductive AssessmentDimension where
  | DISCOVERY_QUESTIONS
  | OBJECTION_HANDLING
  | VALUE_ARTICULATION
  | ACTIVE_LISTENING
  | CONVERSATION_CONTROL
  | EMPATHY_BUILDING
  | BUSINESS_ACUMEN
  | CLOSING_SKILLS
deriving DecidableEq, Repr

/-- The fixed iteration order of the `AssessmentDimension` enum
(the order its members are declared in). -/
def AssessmentDimension.all : List AssessmentDimension :=
  [.DISCOVERY_QUESTIONS, .OBJECTION_HANDLING, .VALUE_ARTICULATION, .ACTIVE_LISTENING,
   .CONVERSATION_CONTROL, .EMPATHY_BUILDING, .BUSINESS_ACUMEN, .CLOSING_SKILLS]

/-- The `.value` string of each enum member. -/
def AssessmentDimension.value : AssessmentDimension → String
  | .DISCOVERY_QUESTIONS => "discovery_questions"
  | .OBJECTION_HANDLING => "objection_handling"
  | .VALUE_ARTICULATION => "value_articulation"
  | .ACTIVE_LISTENING => "active_listening"
  | .CONVERSATION_CONTROL => "conversation_control"
  | .EMPATHY_BUILDING => "empathy_building"
  | .BUSINESS_ACUMEN => "business_acumen"
  | .CLOSING_SKILLS => "closing_skills"

/-- The 6-step Mollick framework (`MollickFrameworkStep` enum,
`integrations/claude.py`). -/
inductive MollickFrameworkStep where
  | CONTEXT_GATHERING
  | SCENARIO_SELECTION
  | SCENE_SETTING
  | INTERACTIVE_ROLEPLAY
  | STRUCTURED_FEEDBACK
  | EXTENDED_LEARNING
deriving DecidableEq, Repr

/-- Numeric `.value` of each framework step (1–6). -/
def MollickFrameworkStep.value : MollickFrameworkStep → Nat
  | .CONTEXT_GATHERING => 1
  | .SCENARIO_SELECTION => 2
  | .SCENE_SETTING => 3
  | .INTERACTIVE_ROLEPLAY => 4
  | .STRUCTURED_FEEDBACK => 5
  | .EXTENDED_LEARNING => 6

/-- `ConversationAnalysis` dataclass (`integrations/claude.py`); the metadata
fields `turn_id`, `processing_time_ms` and `timestamp`, which no embedded
function reads, are omitted.  `assessment_scores` is total because every
constructor of an analysis in the source populates all 8 dimensions. -/
structure ConversationAnalysis where
  user_input : String
  ai_response : String
  assessment_scores : AssessmentDimension → ℚ
  coaching_feedback : List String
  improvement_suggestions : List String
  confidence_score : ℚ

/-- `RealTimeCoachingFeedback` dataclass (`claude_learning_service.py`);
the `timestamp` field is omitted. -/
structure RealTimeCoachingFeedback where
  feedback_id : String
  session_id : String
  trigger_type : String
  message : String
  priority : Int
  display_duration_ms : Int
  coaching_hint : Option String
  socratic_question : Option String
deriving DecidableEq, Repr

/-- The `session.adaptive_parameters` dict.  The four static string entries are
written once by `_calculate_adaptive_parameters`; the `Option` fields model the
keys that `_update_adaptive_parameters` may add later (`none` = key absent).
The static `performance_baseline` entry (never read back) is omitted. -/
structure AdaptiveParameters where
  personalization_level : String
  coaching_frequency : String
  challenge_progression : String
  feedback_style : String
  current_avg_performance : Option ℚ
  suggested_difficulty_increase : Option Bool
  suggested_difficulty_decrease : Option Bool
  coaching_sensitivity : Option String
deriving DecidableEq, Repr

/-- The dict returned by `_calculate_adaptive_parameters` at session start. -/
def initialAdaptiveParameters : AdaptiveParameters :=
  { personalization_level := "medium"
    coaching_frequency := "moderate"
    challenge_progression := "gradual"
    feedback_style := "constructive"
    current_avg_performance := none
    suggested_difficulty_increase := none
    suggested_difficulty_decrease := none
    coaching_sensitivity := none }

/-- `LearningSession` dataclass (`claude_learning_service.py`); the
`session_metrics` and `coaching_interactions` fields, which no claim reads,
are omitted.  `skill_progression` is total over the enum because
`start_learning_session` creates an (initially empty) list for every
dimension. -/
structure LearningSession where
  session_id : String
  user_id : String
  scenario_type : String
  prospect_persona : String
  difficulty_level : Int
  learning_objectives : List String
  start_time : Nat
  end_time : Option Nat
  current_step : MollickFrameworkStep
  conversation_analyses : List ConversationAnalysis
  skill_progression : AssessmentDimension → List ℚ
  adaptive_parameters : AdaptiveParameters

/-- The `session_config` dict passed to `start_learning_session`; a field is
`none` exactly when the corresponding key is absent from the dict (so
`config.get(key, default)` is `Option.getD`).  Keys the function never reads
are not modelled. -/
structure SessionConfig where
  scenario_type : Option String
  prospect_persona : Option String
  difficulty_level : Option Int
  learning_objectives : Option (List String)

/-- In-memory state of `LearningIntelligenceService`: the `active_sessions`
dict and the `session_history` defaultdict(list).  (The service-global
`user_performance` deques are not read by any embedded claim and are
omitted.) -/
structure ServiceState where
  active_sessions : String → Option LearningSession
  session_history : String → List LearningSession

/-- A freshly constructed service (empty dicts). -/
def ServiceState.init : ServiceState :=
  { active_sessions := fun _ => none
    session_history := fun _ => [] }

/-! ### Arithmetic helpers mirroring the `statistics` module -/

/-- `statistics.mean` (callers guard against the empty list, on which the
Python function raises; here division by zero yields 0). -/
def listMean (xs : List ℚ) : ℚ := xs.sum / (xs.length : ℚ)

/-- Python slice `xs[-n:]`. -/
def lastN (n : Nat) (xs : List α) : List α := xs.drop (xs.length - n)

/-- The square of `statistics.stdev xs` for `xs.length ≥ 2`: the sample
variance, with the Bessel `n - 1` denominator. -/
def sampleVariance (xs : List ℚ) : ℚ :=
  (xs.map (fun x => (x - listMean xs) ^ 2)).sum / ((xs.length : ℚ) - 1)

/-- The square of `statistics.pstdev xs`: the population variance, with the
`n` denominator.  Modelled from the spec: the specification's
`SkillProgressionTracker.summarize` asks for the population standard
deviation; the source calls `statistics.stdev` instead.  This definition
exists only to be compared with the source's choice. -/
def popVariance (xs : List ℚ) : ℚ :=
  (xs.map (fun x => (x - listMean xs) ^ 2)).sum / (xs.length : ℚ)

/-- Python `int(q)` for the nonnegative rationals the code applies it to
(truncation toward zero). -/
def pyInt (q : ℚ) : Int := q.num.tdiv q.den

/-- Python `f"{q:.1f}"` for the nonnegative scores the code formats
(one decimal digit, rounding half up). -/
def formatScore1 (q : ℚ) : String :=
  let n : Nat := (⌊q * 10 + 1 / 2⌋).toNat
  toString (n / 10) ++ "." ++ toString (n % 10)

/-! ### The analyzer glue (`integrations/claude.py`) -/

/-- Outcome of one external `analyze_conversation_turn` call, the single
non-deterministic input of a processed turn:

* `apiFailure` – `_make_api_call` raised (API error, connection error after
  retries, …);
* `noJson` – the call succeeded but `re.search` found no `{...}` block in the
  response text (`_parse_text_analysis` path);
* `parseFailure` – a `{...}` block was found but `json.loads` / `float(...)`
  raised (`_create_default_analysis_data` path);
* `parsed` – a JSON object was decoded; `scores d = none` models dimension `d`
  appearing under none of the accepted key variants, and each remaining
  `Option` field models the corresponding JSON key being absent. -/
inductive AnalyzerResult where
  | apiFailure
  | noJson
  | parseFailure
  | parsed (scores : AssessmentDimension → Option ℚ)
      (coaching_feedback : Option (List String))
      (improvement_suggestions : Option (List String))
      (confidence : Option ℚ)

/-- The dict produced by `_parse_analysis_response` and its fallbacks. -/
structure AnalysisData where
  scores : AssessmentDimension → ℚ
  coaching_feedback : List String
  improvement_suggestions : List String
  confidence : ℚ

/-- `_parse_text_analysis` (fallback when the response holds no JSON). -/
def parse_text_analysis : AnalysisData :=
  { scores := fun _ => 3
    coaching_feedback := ["Analysis completed successfully"]
    improvement_suggestions := ["Continue practicing your sales skills"]
    confidence := 7 / 10 }

/-- `_create_default_analysis_data` (fallback when JSON decoding raised). -/
def create_default_analysis_data : AnalysisData :=
  { scores := fun _ => 3
    coaching_feedback := ["Good conversation engagement"]
    improvement_suggestions := ["Continue practicing"]
    confidence := 7 / 10 }

/-- `_parse_analysis_response` on the outcome of a successful API call:
for a decoded JSON object every dimension missing from the scores dict is
filled with the 3.0 default, and the remaining keys fall back to their
documented defaults. -/
def parse_analysis_response : AnalyzerResult → AnalysisData
  | .apiFailure => create_default_analysis_data
  | .noJson => parse_text_analysis
  | .parseFailure => create_default_analysis_data
  | .parsed scores cf sugg conf =>
      { scores := fun d => (scores d).getD 3
        coaching_feedback := cf.getD ["Good conversation engagement"]
        improvement_suggestions := sugg.getD ["Continue practicing"]
        confidence := conf.getD (4 / 5) }

/-- `_create_default_analysis` (used when the API call itself raised). -/
def create_default_analysis (user_input ai_response : String) :
    ConversationAnalysis :=
  { user_input := user_input
    ai_response := ai_response
    assessment_scores := fun _ => 3
    coaching_feedback := ["Unable to analyze this conversation turn, but keep practicing!"]
    improvement_suggestions := ["Continue engaging in the conversation"]
    confidence_score := 1 / 2 }

/-- `ClaudeAPIClient.analyze_conversation_turn`: on an API-call exception the
neutral default analysis is substituted; otherwise the (possibly fallback)
parse result is packaged into a `ConversationAnalysis`. -/
def analyze_conversation_turn (r : AnalyzerResult)
    (user_input ai_response : String) : ConversationAnalysis :=
  match r with
  | .apiFailure => create_default_analysis user_input ai_response
  | _ =>
      let d := parse_analysis_response r
      { user_input := user_input
        ai_response := ai_response
        assessment_scores := d.scores
        coaching_feedback := d.coaching_feedback
        improvement_suggestions := d.improvement_suggestions
        confidence_score := d.confidence }

/-! ### The learning-intelligence service (`claude_learning_service.py`) -/

/-- `_initialize_coaching_thresholds`. -/
def coaching_thresholds : AssessmentDimension → ℚ
  | .DISCOVERY_QUESTIONS => 5 / 2
  | .OBJECTION_HANDLING => 2
  | .VALUE_ARTICULATION => 5 / 2
  | .ACTIVE_LISTENING => 2
  | .CONVERSATION_CONTROL => 3
  | .EMPATHY_BUILDING => 2
  | .BUSINESS_ACUMEN => 3
  | .CLOSING_SKILLS => 7 / 2

/-- `_get_coaching_message_for_dimension`. -/
def get_coaching_message_for_dimension (dim : AssessmentDimension) (score : ℚ) : String :=
  let s := formatScore1 score
  match dim with
  | .DISCOVERY_QUESTIONS => "Try asking more open-ended questions to uncover needs (Score: " ++ s ++ ")"
  | .OBJECTION_HANDLING => "Remember: Acknowledge, understand, then respond to objections (Score: " ++ s ++ ")"
  | .VALUE_ARTICULATION => "Focus on specific benefits that matter to this prospect (Score: " ++ s ++ ")"
  | .ACTIVE_LISTENING => "Show you're listening by reflecting back what you heard (Score: " ++ s ++ ")"
  | .CONVERSATION_CONTROL => "Guide the conversation toward your objectives (Score: " ++ s ++ ")"
  | .EMPATHY_BUILDING => "Connect with the prospect's challenges and feelings (Score: " ++ s ++ ")"
  | .BUSINESS_ACUMEN => "Demonstrate understanding of their business context (Score: " ++ s ++ ")"
  | .CLOSING_SKILLS => "Look for opportunities to advance the conversation (Score: " ++ s ++ ")"

/-- `_get_coaching_hint`. -/
def get_coaching_hint : AssessmentDimension → String
  | .DISCOVERY_QUESTIONS => "Use 'What', 'How', 'Why' questions"
  | .OBJECTION_HANDLING => "Feel, Felt, Found technique"
  | .VALUE_ARTICULATION => "Quantify benefits where possible"
  | .ACTIVE_LISTENING => "Paraphrase and confirm understanding"
  | .CONVERSATION_CONTROL => "Use transition phrases to redirect"
  | .EMPATHY_BUILDING => "Acknowledge their perspective"
  | .BUSINESS_ACUMEN => "Reference industry trends or challenges"
  | .CLOSING_SKILLS => "Suggest concrete next steps"

/-- `_get_socratic_question`. -/
def get_socratic_question : AssessmentDimension → String
  | .DISCOVERY_QUESTIONS => "What information do you still need to understand their situation?"
  | .OBJECTION_HANDLING => "What might be the real concern behind this objection?"
  | .VALUE_ARTICULATION => "How does this benefit solve their specific problem?"
  | .ACTIVE_LISTENING => "What emotions or concerns did you hear in their response?"
  | .CONVERSATION_CONTROL => "Where do you want to guide this conversation next?"
  | .EMPATHY_BUILDING => "How might they be feeling about their current situation?"
  | .BUSINESS_ACUMEN => "What business pressures might be driving their decision?"
  | .CLOSING_SKILLS => "What would be a logical next step to propose?"

/-- The `RealTimeCoachingFeedback` built for a dimension scoring below its
threshold (`_generate_real_time_coaching`, performance-threshold branch).
`session` here already holds the current turn's analysis, matching the call
site (`process_conversation_turn` appends the analysis first). -/
def mkThresholdFeedback (session : LearningSession) (dim : AssessmentDimension)
    (score : ℚ) : RealTimeCoachingFeedback :=
  { feedback_id := "rt_" ++ session.session_id ++ "_"
      ++ toString session.conversation_analyses.length ++ "_" ++ dim.value
    session_id := session.session_id
    trigger_type := "performance_threshold"
    message := get_coaching_message_for_dimension dim score
    priority := 5 - pyInt score
    display_duration_ms := 8000
    coaching_hint := some (get_coaching_hint dim)
    socratic_question := some (get_socratic_question dim) }

/-- The single "opportunity" item (`_generate_real_time_coaching`,
high-performing branch). -/
def mkOpportunityFeedback (session : LearningSession)
    (dim : AssessmentDimension) : RealTimeCoachingFeedback :=
  let pretty := (dim.value.replace "_" " ")
  { feedback_id := "opp_" ++ session.session_id ++ "_"
      ++ toString session.conversation_analyses.length
    session_id := session.session_id
    trigger_type := "opportunity"
    message := "Great " ++ pretty ++ "! Can you leverage this strength to address other areas?"
    priority := 2
    display_duration_ms := 5000
    coaching_hint := some ("Use your strong " ++ pretty ++ " to enhance the conversation flow")
    socratic_question := some "How might you use this strength to overcome the current challenge?" }

/-- `_generate_real_time_coaching`: one performance-threshold item per
dimension scoring strictly below its threshold, iterated in enum order, then
(once the session holds more than 3 analyses and some dimension scored ≥ 4.0)
one opportunity item for the first high-scoring dimension, appended last. -/
def generate_real_time_coaching (session : LearningSession)
    (analysis : ConversationAnalysis) : List RealTimeCoachingFeedback :=
  let feedback_list := AssessmentDimension.all.filterMap (fun dim =>
    let score := analysis.assessment_scores dim
    if score < coaching_thresholds dim then
      some (mkThresholdFeedback session dim score)
    else
      none)
  let high_performing := AssessmentDimension.all.filter
    (fun dim => 4 ≤ analysis.assessment_scores dim)
  match high_performing with
  | [] => feedback_list
  | dim :: _ =>
      if 3 < session.conversation_analyses.length then
        feedback_list ++ [mkOpportunityFeedback session dim]
      else
        feedback_list

/-- `_update_skill_progression`: append the turn's score for every dimension
of the analysis (the analyzer contract populates all 8). -/
def update_skill_progression (session : LearningSession)
    (analysis : ConversationAnalysis) : LearningSession :=
  { session with skill_progression := fun dim =>
      session.skill_progression dim ++ [analysis.assessment_scores dim] }

/-- The `recent_scores` list `_update_adaptive_parameters` builds: every
dimension score of each of the last up-to-3 analyses. -/
def recentScores (session : LearningSession) : List ℚ :=
  ((lastN 3 session.conversation_analyses).map (fun a =>
    AssessmentDimension.all.map a.assessment_scores)).flatten

/-- `_update_adaptive_parameters`: mean of every dimension score over the last
up-to-3 analyses drives the difficulty-suggestion flags and the coaching
sensitivity.  As at the call site, `session` already holds the current
analysis. -/
def update_adaptive_parameters (session : LearningSession) : LearningSession :=
  let recent_scores := recentScores session
  if recent_scores.length ≠ 0 then
    let avg_performance := listMean recent_scores
    let p := session.adaptive_parameters
    let p := { p with current_avg_performance := some avg_performance }
    let p :=
      if 4 < avg_performance ∧ session.difficulty_level < 5 then
        { p with suggested_difficulty_increase := some true }
      else if avg_performance < 2 ∧ 1 < session.difficulty_level then
        { p with suggested_difficulty_decrease := some true }
      else p
    let p :=
      if avg_performance < 5 / 2 then
        { p with coaching_sensitivity := some "high" }
      else if 7 / 2 < avg_performance then
        { p with coaching_sensitivity := some "low" }
      else
        { p with coaching_sensitivity := some "medium" }
    { session with adaptive_parameters := p }
  else
    session

/-- Per-turn mean over the 8 dimension scores
(`statistics.mean(analysis.assessment_scores.values())`). -/
def perTurnAverage (a : ConversationAnalysis) : ℚ :=
  listMean (AssessmentDimension.all.map a.assessment_scores)

/-- `_check_framework_step_progression`: advance at most one step per turn,
driven by the turn count and (for leaving interactive roleplay) the mean of
the per-turn averages over the last 5 analyses. -/
def check_framework_step_progression (session : LearningSession) : LearningSession :=
  let turn_count := session.conversation_analyses.length
  if session.current_step = .CONTEXT_GATHERING ∧ 2 ≤ turn_count then
    { session with current_step := .SCENE_SETTING }
  else if session.current_step = .SCENE_SETTING ∧ 4 ≤ turn_count then
    { session with current_step := .INTERACTIVE_ROLEPLAY }
  else if session.current_step = .INTERACTIVE_ROLEPLAY ∧ 10 ≤ turn_count then
    let recent_performance := (lastN 5 session.conversation_analyses).map perTurnAverage
    if 3 ≤ recent_performance.length then
      if 5 / 2 ≤ listMean recent_performance then
        { session with current_step := .STRUCTURED_FEEDBACK }
      else session
    else session
  else
    session

/-- One entry of `_get_skill_progression_summary`.  `consistencySq` is the
square of the reported `consistency` (see the header note on
`statistics.stdev`). -/
structure SkillSummaryEntry where
  current_score : ℚ
  starting_score : ℚ
  improvement : ℚ
  trend : String
  consistencySq : ℚ
deriving DecidableEq, Repr

/-- `_get_skill_progression_summary`: an entry per dimension whose score list
is nonempty. -/
def get_skill_progression_summary (session : LearningSession) :
    AssessmentDimension → Option SkillSummaryEntry := fun dim =>
  match session.skill_progression dim with
  | [] => none
  | scores@(_ :: _) =>
      some
        { current_score := scores.getLastD 0
          starting_score := if 1 < scores.length then scores.headD 0 else scores.getLastD 0
          improvement := if 1 < scores.length then scores.getLastD 0 - scores.headD 0 else 0
          trend :=
            if 1 < scores.length ∧ scores.headD 0 < scores.getLastD 0 then "improving"
            else "stable"
          consistencySq := if 1 < scores.length then sampleVariance scores else 0 }

/-- The per-session part of `process_conversation_turn` after the analysis is
obtained, in source order: append the analysis, update skill progression,
generate real-time coaching, update adaptive parameters, check step
progression.  (`_update_session_metrics` also runs here in the source; it
writes only the omitted `session_metrics` field.) -/
def process_turn (session : LearningSession) (analysis : ConversationAnalysis) :
    LearningSession × List RealTimeCoachingFeedback :=
  let session := { session with
    conversation_analyses := session.conversation_analyses ++ [analysis] }
  let session := update_skill_progression session analysis
  let coaching_feedback := generate_real_time_coaching session analysis
  let session := update_adaptive_parameters session
  let session := check_framework_step_progression session
  (session, coaching_feedback)

/-- Iterated `process_turn` (the session-level effect of a sequence of
`process_conversation_turn` calls with the given analyses). -/
def runTurns (session : LearningSession) (analyses : List ConversationAnalysis) :
    LearningSession :=
  analyses.foldl (fun s a => (process_turn s a).1) session

/-- The dict `process_conversation_turn` returns on success
(the omitted `session_metrics` entry aside). -/
structure TurnResult where
  analysis : ConversationAnalysis
  coaching_feedback : List RealTimeCoachingFeedback
  current_step : MollickFrameworkStep
  skill_progression : AssessmentDimension → Option SkillSummaryEntry
  adaptive_adjustments : AdaptiveParameters

/-- The default learning objectives substituted when the config has no
`learning_objectives` key. -/
def defaultObjectives : List String :=
  ["Practice discovery questions",
   "Handle objections effectively",
   "Build compelling value propositions"]

/-- The session id `start_learning_session` builds:
`f"session_{user_id}_{int(datetime.utcnow().timestamp())}"`. -/
def makeSessionId (user_id : String) (now : Nat) : String :=
  "session_" ++ user_id ++ "_" ++ toString now

/-- The `LearningSession` object `start_learning_session` constructs. -/
def newSession (user_id : String) (config : SessionConfig) (now : Nat) :
    LearningSession :=
  { session_id := makeSessionId user_id now
    user_id := user_id
    scenario_type := config.scenario_type.getD "cold_call"
    prospect_persona := config.prospect_persona.getD "enterprise_vp"
    difficulty_level := config.difficulty_level.getD 2
    learning_objectives := config.learning_objectives.getD defaultObjectives
    start_time := now
    end_time := none
    current_step := .CONTEXT_GATHERING
    conversation_analyses := []
    skill_progression := fun _ => []
    adaptive_parameters := initialAdaptiveParameters }

/-- `start_learning_session`: build the session and store it in
`active_sessions` under the generated id (overwriting any session already
stored under that id). -/
def start_learning_session (st : ServiceState) (user_id : String)
    (config : SessionConfig) (now : Nat) : ServiceState × String :=
  let session_id := makeSessionId user_id now
  let session := newSession user_id config now
  ({ st with active_sessions := fun k =>
      if k = session_id then some session else st.active_sessions k },
   session_id)

/-- `process_conversation_turn` at service level: unknown ids fail with the
distinct session-not-found error; otherwise the turn pipeline runs on the
stored session and the composite result is returned.  `r` is the outcome of
the external analyzer call for this turn. -/
def process_conversation_turn (st : ServiceState) (session_id : String)
    (user_input ai_response : String) (r : AnalyzerResult) :
    Except String (ServiceState × TurnResult) :=
  match st.active_sessions session_id with
  | none => .error "Session not found"
  | some session =>
      let analysis := analyze_conversation_turn r user_input ai_response
      let out := process_turn session analysis
      let session := out.1
      .ok
        ({ st with active_sessions := fun k =>
            if k = session_id then some session else st.active_sessions k },
         { analysis := analysis
           coaching_feedback := out.2
           current_step := session.current_step
           skill_progression := get_skill_progression_summary session
           adaptive_adjustments := session.adaptive_parameters })

/-- `end_learning_session`: unknown ids fail with the session-not-found
error; otherwise `end_time` is stamped, the session moves from
`active_sessions` to the user's `session_history` list, and the ended session
is returned (the closing report it is wrapped in reads only omitted
fields). -/
def end_learning_session (st : ServiceState) (session_id : String) (now : Nat) :
    Except String (ServiceState × LearningSession) :=
  match st.active_sessions session_id with
  | none => .error "Session not found"
  | some session =>
      let session := { session with end_time := some now }
      .ok
        ({ active_sessions := fun k =>
            if k = session_id then none else st.active_sessions k
           session_history := fun u =>
            if u = session.user_id then st.session_history u ++ [session]
            else st.session_history u },
         session)

/-! ### Concrete demo inputs used by witnesses and counterexamples -/

/-- A session config with every key absent. -/
def demoConfig : SessionConfig :=
  { scenario_type := none, prospect_persona := none,
    difficulty_level := none, learning_objectives := none }

/-- An analysis scoring `q` on every dimension. -/
def demoAnalysis (q : ℚ) : ConversationAnalysis :=
  { user_input := "", ai_response := "", assessment_scores := fun _ => q,
    coaching_feedback := [], improvement_suggestions := [], confidence_score := 1 }

/-! ### Helper lemmas -/

theorem length_lastN (n : Nat) (xs : List α) :
    (lastN n xs).length = min n xs.length := by
  simp [lastN]; omega

theorem update_skill_progression_current_step (s : LearningSession)
    (a : ConversationAnalysis) :
    (update_skill_progression s a).current_step = s.current_step := rfl

theorem update_adaptive_parameters_shape (s : LearningSession) :
    ∃ p, update_adaptive_parameters s = { s with adaptive_parameters := p } := by
  simp only [update_adaptive_parameters]
  split
  · exact ⟨_, rfl⟩
  · exact ⟨_, rfl⟩

theorem check_framework_step_progression_shape (s : LearningSession) :
    ∃ st, check_framework_step_progression s = { s with current_step := st } := by
  simp only [check_framework_step_progression]
  split_ifs <;> exact ⟨_, rfl⟩

theorem update_adaptive_parameters_analyses (s : LearningSession) :
    (update_adaptive_parameters s).conversation_analyses = s.conversation_analyses := by
  obtain ⟨p, hp⟩ := update_adaptive_parameters_shape s
  rw [hp]

theorem update_adaptive_parameters_current_step (s : LearningSession) :
    (update_adaptive_parameters s).current_step = s.current_step := by
  obtain ⟨p, hp⟩ := update_adaptive_parameters_shape s
  rw [hp]

theorem update_adaptive_parameters_skill (s : LearningSession) :
    (update_adaptive_parameters s).skill_progression = s.skill_progression := by
  obtain ⟨p, hp⟩ := update_adaptive_parameters_shape s
  rw [hp]

theorem update_adaptive_parameters_difficulty (s : LearningSession) :
    (update_adaptive_parameters s).difficulty_level = s.difficulty_level := by
  obtain ⟨p, hp⟩ := update_adaptive_parameters_shape s
  rw [hp]

theorem check_analyses (s : LearningSession) :
    (check_framework_step_progression s).conversation_analyses = s.conversation_analyses := by
  obtain ⟨st, hst⟩ := check_framework_step_progression_shape s
  rw [hst]

theorem check_skill (s : LearningSession) :
    (check_framework_step_progression s).skill_progression = s.skill_progression := by
  obtain ⟨st, hst⟩ := check_framework_step_progression_shape s
  rw [hst]

theorem check_adaptive (s : LearningSession) :
    (check_framework_step_progression s).adaptive_parameters = s.adaptive_parameters := by
  obtain ⟨st, hst⟩ := check_framework_step_progression_shape s
  rw [hst]

theorem check_difficulty (s : LearningSession) :
    (check_framework_step_progression s).difficulty_level = s.difficulty_level := by
  obtain ⟨st, hst⟩ := check_framework_step_progression_shape s
  rw [hst]

theorem check_step_mono (s : LearningSession) :
    s.current_step.value ≤ (check_framework_step_progression s).current_step.value := by
  simp only [check_framework_step_progression]
  split_ifs with h1 h2 h3 h4 h5 <;>
    first
      | exact Nat.le_refl _
      | (obtain ⟨h, -⟩ := ‹_ ∧ _›; rw [h]; exact of_decide_eq_true rfl)

/-- `process_turn` is the step-progression check applied after the three
step-preserving updates. -/
theorem process_turn_current_step (s : LearningSession) (a : ConversationAnalysis) :
    (process_turn s a).1.current_step
      = (check_framework_step_progression (update_adaptive_parameters
          (update_skill_progression
            { s with conversation_analyses := s.conversation_analyses ++ [a] } a))).current_step :=
  rfl

theorem process_turn_step_mono (s : LearningSession) (a : ConversationAnalysis) :
    s.current_step.value ≤ (process_turn s a).1.current_step.value := by
  rw [process_turn_current_step]
  have hmid : (update_adaptive_parameters (update_skill_progression
      { s with conversation_analyses := s.conversation_analyses ++ [a] } a)).current_step
      = s.current_step := by
    rw [update_adaptive_parameters_current_step]
    rfl
  calc s.current_step.value
      = (update_adaptive_parameters (update_skill_progression
          { s with conversation_analyses := s.conversation_analyses ++ [a] } a)).current_step.value := by
        rw [hmid]
    _ ≤ _ := check_step_mono _

theorem runTurns_cons (s : LearningSession) (a : ConversationAnalysis)
    (as : List ConversationAnalysis) :
    runTurns s (a :: as) = runTurns (process_turn s a).1 as := rfl

theorem runTurns_step_mono (as : List ConversationAnalysis) :
    ∀ s : LearningSession, s.current_step.value ≤ (runTurns s as).current_step.value := by
  induction as with
  | nil => intro s; exact Nat.le_refl _
  | cons a as ih =>
      intro s
      rw [runTurns_cons]
      exact Nat.le_trans (process_turn_step_mono s a) (ih _)

theorem process_turn_def (s : LearningSession) (a : ConversationAnalysis) :
    (process_turn s a).1
      = check_framework_step_progression (update_adaptive_parameters
          (update_skill_progression
            { s with conversation_analyses := s.conversation_analyses ++ [a] } a)) :=
  rfl

theorem process_turn_analyses (s : LearningSession) (a : ConversationAnalysis) :
    (process_turn s a).1.conversation_analyses = s.conversation_analyses ++ [a] := by
  rw [process_turn_def, check_analyses, update_adaptive_parameters_analyses]
  rfl

theorem process_turn_skill_progression (s : LearningSession) (a : ConversationAnalysis)
    (dim : AssessmentDimension) :
    (process_turn s a).1.skill_progression dim
      = s.skill_progression dim ++ [a.assessment_scores dim] := by
  rw [process_turn_def, check_skill, update_adaptive_parameters_skill]
  rfl

theorem process_turn_difficulty (s : LearningSession) (a : ConversationAnalysis) :
    (process_turn s a).1.difficulty_level = s.difficulty_level := by
  rw [process_turn_def, check_difficulty, update_adaptive_parameters_difficulty]
  rfl

theorem check_context (s : LearningSession)
    (h : s.current_step = .CONTEXT_GATHERING) :
    (check_framework_step_progression s).current_step =
      if 2 ≤ s.conversation_analyses.length then .SCENE_SETTING
      else .CONTEXT_GATHERING := by
  simp only [check_framework_step_progression, h]
  split_ifs <;> simp_all

theorem check_scene (s : LearningSession)
    (h : s.current_step = .SCENE_SETTING) :
    (check_framework_step_progression s).current_step =
      if 4 ≤ s.conversation_analyses.length then .INTERACTIVE_ROLEPLAY
      else .SCENE_SETTING := by
  simp only [check_framework_step_progression, h]
  split_ifs <;> simp_all

theorem check_interactive (s : LearningSession)
    (h : s.current_step = .INTERACTIVE_ROLEPLAY) :
    (check_framework_step_progression s).current_step =
      if 10 ≤ s.conversation_analyses.length ∧
          5 / 2 ≤ listMean ((lastN 5 s.conversation_analyses).map perTurnAverage)
      then .STRUCTURED_FEEDBACK
      else .INTERACTIVE_ROLEPLAY := by
  have hlen : ((lastN 5 s.conversation_analyses).map perTurnAverage).length
      = min 5 s.conversation_analyses.length := by
    rw [List.length_map, length_lastN]
  simp only [check_framework_step_progression, h]
  split_ifs <;> simp_all
  omega

theorem check_feedback (s : LearningSession)
    (h : s.current_step = .STRUCTURED_FEEDBACK) :
    (check_framework_step_progression s).current_step = .STRUCTURED_FEEDBACK := by
  simp only [check_framework_step_progression, h]
  split_ifs <;> simp_all

theorem check_extended (s : LearningSession)
    (h : s.current_step = .EXTENDED_LEARNING) :
    (check_framework_step_progression s).current_step = .EXTENDED_LEARNING := by
  simp only [check_framework_step_progression, h]
  split_ifs <;> simp_all

/-! ### Claim C1 -/

set_option maxRecDepth 100000

attribute [local semireducible] Rat.add Rat.mul Rat.inv Rat.sub in
theorem scenario_allFives_turn9 :
    (runTurns (newSession "u" demoConfig 0)
        (List.replicate 9 (demoAnalysis 5))).current_step = .INTERACTIVE_ROLEPLAY := by
  decide

attribute [local semireducible] Rat.add Rat.mul Rat.inv Rat.sub in
theorem scenario_allFives_turn10 :
    (runTurns (newSession "u" demoConfig 0)
        (List.replicate 10 (demoAnalysis 5))).current_step = .STRUCTURED_FEEDBACK := by
  decide

/-- **C1** (confirmed): the per-turn step-advance check moves
context-gathering → scene-setting at turn count ≥ 2 (skipping
scenario-selection), scene-setting → interactive-roleplay at turn count ≥ 4,
interactive-roleplay → structured-feedback exactly when turn count ≥ 10 and
the mean of the per-turn average scores over the last 5 turns is ≥ 2.5
(otherwise the session stays at interactive-roleplay), never auto-advances
structured-feedback or extended-learning, and never moves backward, so
`current_step` is monotonically non-decreasing over any sequence of processed
turns; a session whose turns all average 5.0 is still at interactive-roleplay
after turn 9 and at structured-feedback after turn 10. -/
theorem claim_C1_step_progression :
    (∀ s : LearningSession,
      s.current_step.value ≤ (check_framework_step_progression s).current_step.value) ∧
    (∀ (s : LearningSession) (as : List ConversationAnalysis),
      s.current_step.value ≤ (runTurns s as).current_step.value) ∧
    (∀ s : LearningSession,
      (s.current_step = .CONTEXT_GATHERING →
        (check_framework_step_progression s).current_step =
          if 2 ≤ s.conversation_analyses.length then .SCENE_SETTING
          else .CONTEXT_GATHERING) ∧
      (s.current_step = .SCENE_SETTING →
        (check_framework_step_progression s).current_step =
          if 4 ≤ s.conversation_analyses.length then .INTERACTIVE_ROLEPLAY
          else .SCENE_SETTING) ∧
      (s.current_step = .INTERACTIVE_ROLEPLAY →
        (check_framework_step_progression s).current_step =
          if 10 ≤ s.conversation_analyses.length ∧
              5 / 2 ≤ listMean ((lastN 5 s.conversation_analyses).map perTurnAverage)
          then .STRUCTURED_FEEDBACK
          else .INTERACTIVE_ROLEPLAY) ∧
      (s.current_step = .STRUCTURED_FEEDBACK →
        (check_framework_step_progression s).current_step = .STRUCTURED_FEEDBACK) ∧
      (s.current_step = .EXTENDED_LEARNING →
        (check_framework_step_progression s).current_step = .EXTENDED_LEARNING)) ∧
    (runTurns (newSession "u" demoConfig 0)
        (List.replicate 9 (demoAnalysis 5))).current_step = .INTERACTIVE_ROLEPLAY ∧
    (runTurns (newSession "u" demoConfig 0)
        (List.replicate 10 (demoAnalysis 5))).current_step = .STRUCTURED_FEEDBACK := by
  refine ⟨check_step_mono, fun s as => runTurns_step_mono as s,
    fun s => ⟨check_context s, check_scene s, check_interactive s,
      check_feedback s, check_extended s⟩, ?_, ?_⟩
  · exact scenario_allFives_turn9
  · exact scenario_allFives_turn10

/-- Witness for C1: at a concrete context-gathering session holding exactly 2
analyses the check advances to scene-setting. -/
theorem claim_C1_step_progression_witness :
    (check_framework_step_progression
      { newSession "u" demoConfig 0 with
          conversation_analyses := [demoAnalysis 3, demoAnalysis 3] }).current_step
      = .SCENE_SETTING := by
  have h := (claim_C1_step_progression.2.2.1
      { newSession "u" demoConfig 0 with
          conversation_analyses := [demoAnalysis 3, demoAnalysis 3] }).1 rfl
  simpa using h

/-! ### Claim C2 -/

/-- **C2** (corrected): the claim as stated is false — when the analyzer call
succeeds but its output is unparseable, the recorded analysis carries
confidence 0.7 (the `_parse_analysis_response` fallbacks), not the claimed
0.5; 0.5 is produced only when the API call itself raises. -/
theorem claim_C2_counterexample :
    (analyze_conversation_turn .noJson "hello" "hi").confidence_score = 7 / 10 ∧
    (analyze_conversation_turn .parseFailure "hello" "hi").confidence_score = 7 / 10 ∧
    ¬ (7 / 10 : ℚ) = 1 / 2 := by
  refine ⟨rfl, rfl, by norm_num⟩

/-- **C2** (amended): an unknown session id always yields the distinct
session-not-found error; an API-call failure records the neutral default
analysis (all 8 dimensions 3.0, fixed fallback strings, confidence 0.5);
unparseable analyzer output records the parse-level default (all dimensions
3.0, confidence 0.7); parseable output missing some dimensions has exactly
the missing dimensions filled with 3.0; and in every analyzer-outcome case
the turn is processed without propagating an error, with the produced
analysis appended to the session. -/
theorem claim_C2_analysis_fallbacks :
    (∀ (st : ServiceState) (sid u a : String) (r : AnalyzerResult),
      st.active_sessions sid = none →
      process_conversation_turn st sid u a r = .error "Session not found") ∧
    (∀ u a,
      analyze_conversation_turn .apiFailure u a = create_default_analysis u a ∧
      (∀ d, (create_default_analysis u a).assessment_scores d = 3) ∧
      (create_default_analysis u a).confidence_score = 1 / 2 ∧
      (create_default_analysis u a).coaching_feedback
        = ["Unable to analyze this conversation turn, but keep practicing!"] ∧
      (create_default_analysis u a).improvement_suggestions
        = ["Continue engaging in the conversation"]) ∧
    (∀ u a d,
      (analyze_conversation_turn .noJson u a).assessment_scores d = 3 ∧
      (analyze_conversation_turn .parseFailure u a).assessment_scores d = 3 ∧
      (analyze_conversation_turn .noJson u a).confidence_score = 7 / 10 ∧
      (analyze_conversation_turn .parseFailure u a).confidence_score = 7 / 10) ∧
    (∀ u a scores cf sugg conf d,
      (analyze_conversation_turn (.parsed scores cf sugg conf) u a).assessment_scores d
        = (scores d).getD 3) ∧
    (∀ (st : ServiceState) (sid : String) (s : LearningSession) (u a : String)
        (r : AnalyzerResult),
      st.active_sessions sid = some s →
      ∃ st2 res, process_conversation_turn st sid u a r = .ok (st2, res) ∧
        res.analysis = analyze_conversation_turn r u a ∧
        (st2.active_sessions sid).map LearningSession.conversation_analyses
          = some (s.conversation_analyses ++ [res.analysis])) := by
  refine ⟨?_, ?_, ?_, ?_, ?_⟩
  · intro st sid u a r h
    simp [process_conversation_turn, h]
  · intro u a
    exact ⟨rfl, fun d => rfl, rfl, rfl, rfl⟩
  · intro u a d
    exact ⟨rfl, rfl, rfl, rfl⟩
  · intro u a scores cf sugg conf d
    rfl
  · intro st sid s u a r h
    simp only [process_conversation_turn, h]
    refine ⟨_, _, rfl, rfl, ?_⟩
    simp [process_turn_analyses]

/-- Witness for C2: a lookup on the empty service state fails with the
session-not-found error, and a started session processes an API-failure turn
without error. -/
theorem claim_C2_analysis_fallbacks_witness :
    process_conversation_turn ServiceState.init "missing" "u" "a" .apiFailure
      = .error "Session not found" ∧
    ∃ st2 res,
      process_conversation_turn
          (start_learning_session ServiceState.init "u" demoConfig 0).1
          (makeSessionId "u" 0) "hi" "ok" .apiFailure = .ok (st2, res) ∧
      res.analysis = analyze_conversation_turn .apiFailure "hi" "ok" ∧
      (st2.active_sessions (makeSessionId "u" 0)).map
          LearningSession.conversation_analyses
        = some ((newSession "u" demoConfig 0).conversation_analyses ++ [res.analysis]) := by
  constructor
  · exact claim_C2_analysis_fallbacks.1 ServiceState.init "missing" "u" "a" .apiFailure rfl
  · exact claim_C2_analysis_fallbacks.2.2.2.2
      (start_learning_session ServiceState.init "u" demoConfig 0).1
      (makeSessionId "u" 0) (newSession "u" demoConfig 0) "hi" "ok" .apiFailure
      (by simp [start_learning_session])

/-! ### Claim C3 -/

theorem filterMap_ite {α β : Type} (p : α → Prop) [DecidablePred p] (f : α → β)
    (l : List α) :
    (l.filterMap fun x => if p x then some (f x) else none)
      = (l.filter fun x => p x).map f := by
  induction l with
  | nil => rfl
  | cons x xs ih => by_cases h : p x <;> simp [h, ih]

/-- `_generate_real_time_coaching` decomposed: the threshold items for the
below-threshold dimensions in enumeration order, then (only when the session
holds more than 3 analyses and some dimension scored ≥ 4.0) the opportunity
item for the first high-scoring dimension. -/
theorem generate_decomposition (s : LearningSession) (a : ConversationAnalysis) :
    generate_real_time_coaching s a
      = ((AssessmentDimension.all.filter fun d =>
            a.assessment_scores d < coaching_thresholds d).map
          fun d => mkThresholdFeedback s d (a.assessment_scores d))
        ++ (match AssessmentDimension.all.filter (fun d => 4 ≤ a.assessment_scores d) with
            | [] => []
            | d :: _ =>
                if 3 < s.conversation_analyses.length then [mkOpportunityFeedback s d]
                else []) := by
  simp only [generate_real_time_coaching]
  rw [filterMap_ite (fun d => a.assessment_scores d < coaching_thresholds d)
      (fun d => mkThresholdFeedback s d (a.assessment_scores d))]
  cases h : AssessmentDimension.all.filter (fun d => 4 ≤ a.assessment_scores d) with
  | nil => simp
  | cons d ds =>
      split_ifs
      all_goals simp

theorem pyInt_eq_floor (q : ℚ) (h : 0 ≤ q) : pyInt q = ⌊q⌋ := by
  rw [pyInt, Rat.floor_def]
  exact Int.tdiv_eq_ediv (Rat.num_nonneg.mpr h) (Int.ofNat_nonneg q.den)

/-- Every coaching threshold lies strictly below the 4.0 opportunity cut. -/
theorem thresholds_lt_four (d : AssessmentDimension) :
    ¬ (4 : ℚ) ≤ coaching_thresholds d := by
  cases d <;> norm_num [coaching_thresholds]

/-- A demo session holding 4 all-fives analyses. -/
def demoSession4 : LearningSession :=
  { newSession "u" demoConfig 0 with
      conversation_analyses := List.replicate 4 (demoAnalysis 5) }

attribute [local semireducible] Rat.add Rat.mul Rat.inv Rat.sub in
/-- **C3** (corrected): the claim as stated is false — on a session with more
than 3 turns and a turn scoring 5.0 everywhere, the single generated item is
the opportunity item with display duration 5000 ms, which is strictly shorter
than, not longer than, the 8000 ms used by every performance-threshold item. -/
theorem claim_C3_counterexample :
    ((generate_real_time_coaching demoSession4 (demoAnalysis 5)).map
        fun fb => (fb.trigger_type, fb.display_duration_ms))
      = [("opportunity", 5000)] ∧
    (mkThresholdFeedback demoSession4 AssessmentDimension.DISCOVERY_QUESTIONS 1).display_duration_ms
      = 8000 ∧
    (5000 : Int) < 8000 := by
  refine ⟨by decide, rfl, by decide⟩

/-- **C3** (amended): the generated list is one performance-threshold item per
dimension scoring strictly below its threshold (priority `5 − floor(score)`,
display duration 8000 ms), in dimension-enumeration order, followed — only
when the session has more than 3 turns and some dimension scored ≥ 4.0 — by
exactly one opportunity item (priority 2, fixed display duration 5000 ms,
*shorter* than the threshold items' 8000 ms) for the first high-scoring
dimension in enumeration order, placed last; a turn scoring exactly at every
threshold yields no items at all, and no opportunity item is ever emitted
when the turn count is ≤ 3. -/
theorem claim_C3_realtime_coaching :
    (∀ (s : LearningSession) (a : ConversationAnalysis),
      generate_real_time_coaching s a
        = ((AssessmentDimension.all.filter fun d =>
              a.assessment_scores d < coaching_thresholds d).map
            fun d => mkThresholdFeedback s d (a.assessment_scores d))
          ++ (match AssessmentDimension.all.filter (fun d => 4 ≤ a.assessment_scores d) with
              | [] => []
              | d :: _ =>
                  if 3 < s.conversation_analyses.length then [mkOpportunityFeedback s d]
                  else [])) ∧
    (∀ (s : LearningSession) (d : AssessmentDimension) (q : ℚ),
      (mkThresholdFeedback s d q).trigger_type = "performance_threshold" ∧
      (mkThresholdFeedback s d q).display_duration_ms = 8000) ∧
    (∀ (s : LearningSession) (d : AssessmentDimension) (q : ℚ),
      0 ≤ q → (mkThresholdFeedback s d q).priority = 5 - ⌊q⌋) ∧
    (∀ (s : LearningSession) (d : AssessmentDimension),
      (mkOpportunityFeedback s d).trigger_type = "opportunity" ∧
      (mkOpportunityFeedback s d).priority = 2 ∧
      (mkOpportunityFeedback s d).display_duration_ms = 5000 ∧
      (5000 : Int) < 8000) ∧
    (∀ (s : LearningSession) (a : ConversationAnalysis),
      (∀ d, a.assessment_scores d = coaching_thresholds d) →
      generate_real_time_coaching s a = []) ∧
    (∀ (s : LearningSession) (a : ConversationAnalysis),
      ¬ 3 < s.conversation_analyses.length →
      generate_real_time_coaching s a
        = (AssessmentDimension.all.filter fun d =>
              a.assessment_scores d < coaching_thresholds d).map
            fun d => mkThresholdFeedback s d (a.assessment_scores d)) := by
  refine ⟨generate_decomposition, fun s d q => ⟨rfl, rfl⟩, ?_,
    fun s d => ⟨rfl, rfl, rfl, by decide⟩, ?_, ?_⟩
  · intro s d q hq
    show 5 - pyInt q = 5 - ⌊q⌋
    rw [pyInt_eq_floor q hq]
  · intro s a h
    rw [generate_decomposition]
    have h1 : (AssessmentDimension.all.filter fun d =>
        a.assessment_scores d < coaching_thresholds d) = [] := by
      rw [List.filter_eq_nil_iff]
      intro d _
      simp [h d]
    have h2 : (AssessmentDimension.all.filter fun d =>
        (4 : ℚ) ≤ a.assessment_scores d) = [] := by
      rw [List.filter_eq_nil_iff]
      intro d _
      simp [h d, thresholds_lt_four d]
    rw [h1, h2]
    rfl
  · intro s a h
    rw [generate_decomposition]
    cases AssessmentDimension.all.filter (fun d => 4 ≤ a.assessment_scores d) with
    | nil => simp
    | cons d ds => simp [h]

/-- Witness for C3: the floor-priority equation at score 1.0, and the
no-opportunity guarantee at a fresh session (0 turns) whose turn scores 5.0
everywhere. -/
theorem claim_C3_realtime_coaching_witness :
    (mkThresholdFeedback (newSession "u" demoConfig 0) .DISCOVERY_QUESTIONS 1).priority
      = 5 - ⌊(1 : ℚ)⌋ ∧
    generate_real_time_coaching (newSession "u" demoConfig 0) (demoAnalysis 5)
      = (AssessmentDimension.all.filter fun d =>
            (demoAnalysis 5).assessment_scores d < coaching_thresholds d).map
          fun d => mkThresholdFeedback (newSession "u" demoConfig 0) d
            ((demoAnalysis 5).assessment_scores d) := by
  constructor
  · exact claim_C3_realtime_coaching.2.2.1 (newSession "u" demoConfig 0)
      .DISCOVERY_QUESTIONS 1 (by norm_num)
  · exact claim_C3_realtime_coaching.2.2.2.2.2 (newSession "u" demoConfig 0)
      (demoAnalysis 5) (by decide)

/-! ### Claim C4 -/

theorem recentScores_length_ne_zero (s : LearningSession)
    (h : s.conversation_analyses ≠ []) : (recentScores s).length ≠ 0 := by
  have hl : 1 ≤ (lastN 3 s.conversation_analyses).length := by
    rw [length_lastN]
    have := List.length_pos.mpr h
    omega
  cases hc : lastN 3 s.conversation_analyses with
  | nil => rw [hc] at hl; simp at hl
  | cons y ys =>
      rw [recentScores, hc]
      simp [AssessmentDimension.all]

theorem update_adaptive_spec (s : LearningSession)
    (h : s.conversation_analyses ≠ []) :
    (update_adaptive_parameters s).adaptive_parameters.current_avg_performance
      = some (listMean (recentScores s)) ∧
    ((update_adaptive_parameters s).adaptive_parameters.suggested_difficulty_increase
      = if 4 < listMean (recentScores s) ∧ s.difficulty_level < 5 then some true
        else s.adaptive_parameters.suggested_difficulty_increase) ∧
    ((update_adaptive_parameters s).adaptive_parameters.suggested_difficulty_decrease
      = if listMean (recentScores s) < 2 ∧ 1 < s.difficulty_level then some true
        else s.adaptive_parameters.suggested_difficulty_decrease) ∧
    ((update_adaptive_parameters s).adaptive_parameters.coaching_sensitivity
      = some (if listMean (recentScores s) < 5 / 2 then "high"
              else if 7 / 2 < listMean (recentScores s) then "low" else "medium")) := by
  have hg := recentScores_length_ne_zero s h
  refine ⟨?_, ?_, ?_, ?_⟩ <;>
    (simp only [update_adaptive_parameters]
     rw [if_pos hg]
     split_ifs <;>
       first
         | rfl
         | (exfalso
            rcases ‹(4:ℚ) < _ ∧ _› with ⟨ha, hb⟩
            rcases ‹listMean _ < 2 ∧ _› with ⟨hc, hd⟩
            linarith))

attribute [local semireducible] Rat.add Rat.mul Rat.inv Rat.sub in
theorem avg45 (s : LearningSession) (m : Nat) (h1 : 1 ≤ m)
    (h : s.conversation_analyses = List.replicate m (demoAnalysis (9/2))) :
    listMean (recentScores s) = 9 / 2 := by
  rw [recentScores, h]
  have hd : lastN 3 (List.replicate m (demoAnalysis (9/2)))
      = List.replicate (min 3 m) (demoAnalysis (9/2)) := by
    rw [lastN, List.length_replicate, List.drop_replicate]
    congr 1
    omega
  rw [hd]
  have h3 : min 3 m = 1 ∨ min 3 m = 2 ∨ min 3 m = 3 := by omega
  rcases h3 with h3 | h3 | h3 <;> rw [h3] <;> decide

theorem process_turn_ap (s : LearningSession) (a : ConversationAnalysis) :
    (process_turn s a).1.adaptive_parameters
      = (update_adaptive_parameters (update_skill_progression
          { s with conversation_analyses := s.conversation_analyses ++ [a] } a)).adaptive_parameters := by
  rw [process_turn_def, check_adaptive]

theorem process_turn45 (s : LearningSession) (m : Nat) (d : Int)
    (hca : s.conversation_analyses = List.replicate m (demoAnalysis (9/2)))
    (hdl : s.difficulty_level = d) :
    (process_turn s (demoAnalysis (9/2))).1.conversation_analyses
      = List.replicate (m + 1) (demoAnalysis (9/2)) ∧
    (process_turn s (demoAnalysis (9/2))).1.difficulty_level = d ∧
    ((process_turn s (demoAnalysis (9/2))).1.adaptive_parameters.suggested_difficulty_increase
      = if d < 5 then some true else s.adaptive_parameters.suggested_difficulty_increase) := by
  refine ⟨?_, ?_, ?_⟩
  · rw [process_turn_analyses, hca, ← List.replicate_succ']
  · rw [process_turn_difficulty, hdl]
  · rw [process_turn_ap]
    have hmidca : (update_skill_progression
        { s with conversation_analyses := s.conversation_analyses ++ [demoAnalysis (9/2)] }
        (demoAnalysis (9/2))).conversation_analyses
        = List.replicate (m + 1) (demoAnalysis (9/2)) := by
      show s.conversation_analyses ++ [demoAnalysis (9/2)] = _
      rw [hca, ← List.replicate_succ']
    have hmidne : (update_skill_progression
        { s with conversation_analyses := s.conversation_analyses ++ [demoAnalysis (9/2)] }
        (demoAnalysis (9/2))).conversation_analyses ≠ [] := by
      rw [hmidca]; simp
    have hmean := avg45 _ (m + 1) (by omega) hmidca
    have hspec := (update_adaptive_spec _ hmidne).2.1
    rw [hspec, hmean]
    have hmd : (update_skill_progression
        { s with conversation_analyses := s.conversation_analyses ++ [demoAnalysis (9/2)] }
        (demoAnalysis (9/2))).difficulty_level = d := hdl
    rw [hmd]
    by_cases hd5 : d < 5
    · rw [if_pos ⟨by norm_num, hd5⟩, if_pos hd5]
    · rw [if_neg (fun hc => hd5 hc.2), if_neg hd5]
      rfl

theorem runTurns45 (d : Int) :
    ∀ (n m : Nat) (s : LearningSession),
      s.conversation_analyses = List.replicate m (demoAnalysis (9/2)) →
      s.difficulty_level = d →
      (runTurns s (List.replicate n (demoAnalysis (9/2)))).conversation_analyses
        = List.replicate (m + n) (demoAnalysis (9/2)) ∧
      (runTurns s (List.replicate n (demoAnalysis (9/2)))).difficulty_level = d ∧
      ((runTurns s (List.replicate n (demoAnalysis (9/2)))).adaptive_parameters.suggested_difficulty_increase
        = if 1 ≤ n ∧ d < 5 then some true
          else s.adaptive_parameters.suggested_difficulty_increase) := by
  intro n
  induction n with
  | zero =>
      intro m s hca hdl
      refine ⟨by simpa using hca, hdl, ?_⟩
      have hz : runTurns s (List.replicate 0 (demoAnalysis (9/2))) = s := rfl
      rw [hz, if_neg]
      rintro ⟨hk, -⟩
      omega
  | succ k ih =>
      intro m s hca hdl
      rw [List.replicate_succ, runTurns_cons]
      obtain ⟨h1, h2, h3⟩ := process_turn45 s m d hca hdl
      obtain ⟨g1, g2, g3⟩ := ih (m + 1) _ h1 h2
      refine ⟨by rw [g1]; congr 1; omega, g2, ?_⟩
      rw [g3, h3]
      by_cases hd5 : d < 5
      · by_cases hk : 1 ≤ k
        · rw [if_pos ⟨hk, hd5⟩, if_pos ⟨by omega, hd5⟩]
        · rw [if_neg (fun hc => hk hc.1), if_pos hd5, if_pos ⟨by omega, hd5⟩]
      · rw [if_neg (fun hc => hd5 hc.2), if_neg hd5, if_neg (fun hc => hd5 hc.2)]

/-- **C4** (confirmed): on every processed turn (the session then holds at
least one analysis), the adaptive update records
`current_avg_performance` = the mean of all dimension scores over the last
up-to-3 turns, sets the increase flag exactly when that mean > 4.0 and
`difficulty_level` < 5, the decrease flag exactly when the mean < 2.0 and
`difficulty_level` > 1 (at most one of the two is touched per update), and
sets `coaching_sensitivity` to "high" / "low" / "medium" by the 2.5 and 3.5
cuts; a fresh session whose every turn scores 4.5 everywhere ends with the
increase flag true whenever `difficulty_level` < 5 and absent when it is 5. -/
theorem claim_C4_adaptive_parameters :
    (∀ s : LearningSession, s.conversation_analyses ≠ [] →
      (update_adaptive_parameters s).adaptive_parameters.current_avg_performance
        = some (listMean (recentScores s)) ∧
      ((update_adaptive_parameters s).adaptive_parameters.suggested_difficulty_increase
        = if 4 < listMean (recentScores s) ∧ s.difficulty_level < 5 then some true
          else s.adaptive_parameters.suggested_difficulty_increase) ∧
      ((update_adaptive_parameters s).adaptive_parameters.suggested_difficulty_decrease
        = if listMean (recentScores s) < 2 ∧ 1 < s.difficulty_level then some true
          else s.adaptive_parameters.suggested_difficulty_decrease) ∧
      ((update_adaptive_parameters s).adaptive_parameters.coaching_sensitivity
        = some (if listMean (recentScores s) < 5 / 2 then "high"
                else if 7 / 2 < listMean (recentScores s) then "low" else "medium")) ∧
      ((update_adaptive_parameters s).adaptive_parameters.suggested_difficulty_increase
          = s.adaptive_parameters.suggested_difficulty_increase ∨
        (update_adaptive_parameters s).adaptive_parameters.suggested_difficulty_decrease
          = s.adaptive_parameters.suggested_difficulty_decrease)) ∧
    (∀ (u : String) (cfg : SessionConfig) (t n : Nat), 1 ≤ n →
      ((newSession u cfg t).difficulty_level < 5 →
        (runTurns (newSession u cfg t)
            (List.replicate n (demoAnalysis (9 / 2)))).adaptive_parameters.suggested_difficulty_increase
          = some true) ∧
      ((newSession u cfg t).difficulty_level = 5 →
        (runTurns (newSession u cfg t)
            (List.replicate n (demoAnalysis (9 / 2)))).adaptive_parameters.suggested_difficulty_increase
          = none)) := by
  constructor
  · intro s h
    obtain ⟨h1, h2, h3, h4⟩ := update_adaptive_spec s h
    refine ⟨h1, h2, h3, h4, ?_⟩
    by_cases hc : 4 < listMean (recentScores s) ∧ s.difficulty_level < 5
    · right
      rw [h3, if_neg]
      rintro ⟨hlt, -⟩
      exact absurd hc.1 (by linarith)
    · left
      rw [h2, if_neg hc]
  · intro u cfg t n hn
    have hrun := runTurns45 (newSession u cfg t).difficulty_level n 0
      (newSession u cfg t) rfl rfl
    obtain ⟨-, -, h3⟩ := hrun
    constructor
    · intro hlt
      rw [h3, if_pos ⟨hn, hlt⟩]
    · intro heq
      rw [h3, if_neg]
      · rfl
      · rintro ⟨-, hlt⟩
        omega

/-- Witness for C4: one all-4.5 turn on a fresh default-difficulty (2)
session sets the increase-suggestion flag. -/
theorem claim_C4_adaptive_parameters_witness :
    (runTurns (newSession "u" demoConfig 0)
        (List.replicate 1 (demoAnalysis (9 / 2)))).adaptive_parameters.suggested_difficulty_increase
      = some true :=
  (claim_C4_adaptive_parameters.2 "u" demoConfig 0 1 (by decide)).1 (by decide)

/-! ### Claim C10 -/

theorem update_adaptive_increase_cases (s : LearningSession) :
    (update_adaptive_parameters s).adaptive_parameters.suggested_difficulty_increase
      = s.adaptive_parameters.suggested_difficulty_increase ∨
    (update_adaptive_parameters s).adaptive_parameters.suggested_difficulty_increase
      = some true := by
  simp only [update_adaptive_parameters]
  split_ifs <;> first | exact Or.inl rfl | exact Or.inr rfl

theorem update_adaptive_decrease_cases (s : LearningSession) :
    (update_adaptive_parameters s).adaptive_parameters.suggested_difficulty_decrease
      = s.adaptive_parameters.suggested_difficulty_decrease ∨
    (update_adaptive_parameters s).adaptive_parameters.suggested_difficulty_decrease
      = some true := by
  simp only [update_adaptive_parameters]
  split_ifs <;> first | exact Or.inl rfl | exact Or.inr rfl

theorem process_turn_increase_cases (s : LearningSession) (a : ConversationAnalysis) :
    (process_turn s a).1.adaptive_parameters.suggested_difficulty_increase
      = s.adaptive_parameters.suggested_difficulty_increase ∨
    (process_turn s a).1.adaptive_parameters.suggested_difficulty_increase
      = some true := by
  rw [process_turn_ap]
  exact update_adaptive_increase_cases _

theorem process_turn_decrease_cases (s : LearningSession) (a : ConversationAnalysis) :
    (process_turn s a).1.adaptive_parameters.suggested_difficulty_decrease
      = s.adaptive_parameters.suggested_difficulty_decrease ∨
    (process_turn s a).1.adaptive_parameters.suggested_difficulty_decrease
      = some true := by
  rw [process_turn_ap]
  exact update_adaptive_decrease_cases _

theorem runTurns_increase_sticky (as : List ConversationAnalysis) :
    ∀ s : LearningSession,
      s.adaptive_parameters.suggested_difficulty_increase = some true →
      (runTurns s as).adaptive_parameters.suggested_difficulty_increase = some true := by
  induction as with
  | nil => intro s h; exact h
  | cons a as ih =>
      intro s h
      rw [runTurns_cons]
      refine ih _ ?_
      rcases process_turn_increase_cases s a with hc | hc
      · rw [hc, h]
      · exact hc

theorem runTurns_decrease_sticky (as : List ConversationAnalysis) :
    ∀ s : LearningSession,
      s.adaptive_parameters.suggested_difficulty_decrease = some true →
      (runTurns s as).adaptive_parameters.suggested_difficulty_decrease = some true := by
  induction as with
  | nil => intro s h; exact h
  | cons a as ih =>
      intro s h
      rw [runTurns_cons]
      refine ih _ ?_
      rcases process_turn_decrease_cases s a with hc | hc
      · rw [hc, h]
      · exact hc

attribute [local semireducible] Rat.add Rat.mul Rat.inv Rat.sub in
/-- A high-performing first turn (all fives) followed by three all-ones turns
leaves both suggestion flags present simultaneously. -/
theorem scenario_bothFlags :
    (runTurns (newSession "u" demoConfig 0)
        [demoAnalysis 5, demoAnalysis 1, demoAnalysis 1,
          demoAnalysis 1]).adaptive_parameters.suggested_difficulty_increase = some true ∧
    (runTurns (newSession "u" demoConfig 0)
        [demoAnalysis 5, demoAnalysis 1, demoAnalysis 1,
          demoAnalysis 1]).adaptive_parameters.suggested_difficulty_decrease = some true := by
  constructor <;> decide

/-- **C10** (confirmed): the difficulty-suggestion flags are sticky — a
processed turn either leaves a flag untouched or sets it to `some true`,
never removes or falsifies it, so once set it survives every later turn; and
a concrete high-then-low session ends with both flags simultaneously
present. -/
theorem claim_C10_sticky_flags :
    (∀ (s : LearningSession) (a : ConversationAnalysis),
      ((process_turn s a).1.adaptive_parameters.suggested_difficulty_increase
          = s.adaptive_parameters.suggested_difficulty_increase ∨
        (process_turn s a).1.adaptive_parameters.suggested_difficulty_increase
          = some true) ∧
      ((process_turn s a).1.adaptive_parameters.suggested_difficulty_decrease
          = s.adaptive_parameters.suggested_difficulty_decrease ∨
        (process_turn s a).1.adaptive_parameters.suggested_difficulty_decrease
          = some true)) ∧
    (∀ (s : LearningSession) (as : List ConversationAnalysis),
      s.adaptive_parameters.suggested_difficulty_increase = some true →
      (runTurns s as).adaptive_parameters.suggested_difficulty_increase = some true) ∧
    (∀ (s : LearningSession) (as : List ConversationAnalysis),
      s.adaptive_parameters.suggested_difficulty_decrease = some true →
      (runTurns s as).adaptive_parameters.suggested_difficulty_decrease = some true) ∧
    ((runTurns (newSession "u" demoConfig 0)
        [demoAnalysis 5, demoAnalysis 1, demoAnalysis 1,
          demoAnalysis 1]).adaptive_parameters.suggested_difficulty_increase = some true ∧
      (runTurns (newSession "u" demoConfig 0)
        [demoAnalysis 5, demoAnalysis 1, demoAnalysis 1,
          demoAnalysis 1]).adaptive_parameters.suggested_difficulty_decrease = some true) :=
  ⟨fun s a => ⟨process_turn_increase_cases s a, process_turn_decrease_cases s a⟩,
   fun s as => runTurns_increase_sticky as s,
   fun s as => runTurns_decrease_sticky as s,
   scenario_bothFlags⟩

/-- Witness for C10: an already-set increase flag survives a low-scoring
turn. -/
theorem claim_C10_sticky_flags_witness :
    (runTurns
        { newSession "u" demoConfig 0 with
            adaptive_parameters :=
              { initialAdaptiveParameters with suggested_difficulty_increase := some true } }
        [demoAnalysis 1]).adaptive_parameters.suggested_difficulty_increase = some true :=
  claim_C10_sticky_flags.2.1
    { newSession "u" demoConfig 0 with
        adaptive_parameters :=
          { initialAdaptiveParameters with suggested_difficulty_increase := some true } }
    [demoAnalysis 1] rfl

/-! ### Claim C5 -/

/-- A demo session with two recorded discovery-questions scores 1.0 and 3.0. -/
def demoSessionC5 : LearningSession :=
  { newSession "u" demoConfig 0 with
      skill_progression := fun d =>
        match d with
        | .DISCOVERY_QUESTIONS => [1, 3]
        | _ => [] }

attribute [local semireducible] Rat.add Rat.mul Rat.inv Rat.sub in
/-- **C5** (corrected): the claim as stated is false — the source computes
`consistency` with `statistics.stdev` (sample standard deviation, Bessel
`n − 1` denominator), not the population standard deviation: for the score
list `[1.0, 3.0]` the squared reported consistency is the sample variance 2,
while the squared population standard deviation is 1. -/
theorem claim_C5_counterexample :
    (get_skill_progression_summary demoSessionC5 .DISCOVERY_QUESTIONS).map
        (fun e => e.consistencySq) = some 2 ∧
    popVariance [(1 : ℚ), 3] = 1 ∧
    (2 : ℚ) ≠ 1 := by
  refine ⟨by decide, by decide, by decide⟩

/-- **C5** (amended): the skill-progression summary has an entry exactly for
each dimension with at least one recorded score; for such a dimension,
current = last value, starting = first value (equal to current with a single
score), delta = current − starting (0 with a single score), trend is
"improving" iff at least 2 scores exist and delta > 0 and "stable" otherwise,
and consistency is the *sample* standard deviation of the score list
(squared here: the sample variance), 0 when fewer than 2 scores exist. -/
theorem claim_C5_summary (s : LearningSession) (dim : AssessmentDimension) :
    (get_skill_progression_summary s dim = none ↔ s.skill_progression dim = []) ∧
    (∀ (x : ℚ) (xs : List ℚ), s.skill_progression dim = x :: xs →
      ∃ e, get_skill_progression_summary s dim = some e ∧
        e.current_score = (x :: xs).getLastD 0 ∧
        e.starting_score = x ∧
        e.improvement = e.current_score - e.starting_score ∧
        e.trend = (if 1 < (x :: xs).length ∧ 0 < e.improvement then "improving"
                   else "stable") ∧
        e.consistencySq = (if 1 < (x :: xs).length then sampleVariance (x :: xs)
                           else 0) ∧
        (xs = [] → e.improvement = 0 ∧ e.trend = "stable" ∧ e.consistencySq = 0)) := by
  constructor
  · cases h : s.skill_progression dim with
    | nil => simp [get_skill_progression_summary, h]
    | cons x xs => simp [get_skill_progression_summary, h]
  · intro x xs h
    cases xs with
    | nil =>
        refine ⟨{ current_score := x, starting_score := x, improvement := 0,
                  trend := "stable", consistencySq := 0 },
          by simp [get_skill_progression_summary, h], rfl, rfl, ?_, ?_, ?_, ?_⟩
        · show (0 : ℚ) = x - x
          rw [sub_self]
        · rw [if_neg]
          rintro ⟨hl, -⟩
          simp at hl
        · rw [if_neg]
          simp
        · intro _
          exact ⟨rfl, rfl, rfl⟩
    | cons y ys =>
        have hlen : 1 < (x :: y :: ys).length := by simp
        refine ⟨{ current_score := (x :: y :: ys).getLastD 0,
                  starting_score := x,
                  improvement := (x :: y :: ys).getLastD 0 - x,
                  trend := if x < (x :: y :: ys).getLastD 0 then "improving"
                           else "stable",
                  consistencySq := sampleVariance (x :: y :: ys) },
          by simp [get_skill_progression_summary, h], rfl, rfl, rfl, ?_, ?_, ?_⟩
        · by_cases hc : x < (x :: y :: ys).getLastD 0
          · rw [if_pos hc, if_pos ⟨hlen, sub_pos.mpr hc⟩]
          · rw [if_neg hc,
              if_neg (by rintro ⟨-, hp⟩; exact hc (sub_pos.mp hp))]
        · rw [if_pos hlen]
        · intro hc
          cases hc

/-- Witness for C5: the summary entry of the demo session with discovery
scores `[1.0, 3.0]`. -/
theorem claim_C5_summary_witness :
    ∃ e, get_skill_progression_summary demoSessionC5 .DISCOVERY_QUESTIONS = some e ∧
      e.current_score = 3 ∧ e.starting_score = 1 := by
  obtain ⟨e, he, h1, h2, -⟩ :=
    (claim_C5_summary demoSessionC5 .DISCOVERY_QUESTIONS).2 1 [3] rfl
  refine ⟨e, he, ?_, h2⟩
  rw [h1]
  rfl

/-! ### Claim C6 -/

theorem runTurns_analyses_length (as : List ConversationAnalysis) :
    ∀ s : LearningSession,
      (runTurns s as).conversation_analyses.length
        = s.conversation_analyses.length + as.length := by
  induction as with
  | nil => intro s; rfl
  | cons a as ih =>
      intro s
      rw [runTurns_cons, ih, process_turn_analyses]
      simp
      omega

/-- **C6** (confirmed): every dimension's skill-progression list exists (empty)
from session creation, each processed turn appends exactly one score per
dimension, and after any turn sequence from a fresh session each list's
length equals the number of processed turns. -/
theorem claim_C6_skill_progression_lengths :
    (∀ (u : String) (cfg : SessionConfig) (t : Nat) (dim : AssessmentDimension),
      (newSession u cfg t).skill_progression dim = []) ∧
    (∀ (s : LearningSession) (a : ConversationAnalysis) (dim : AssessmentDimension),
      ((process_turn s a).1.skill_progression dim).length
        = (s.skill_progression dim).length + 1 ∧
      (process_turn s a).1.conversation_analyses.length
        = s.conversation_analyses.length + 1) ∧
    (∀ (s : LearningSession) (as : List ConversationAnalysis)
        (dim : AssessmentDimension),
      (∀ d, (s.skill_progression d).length = s.conversation_analyses.length) →
      ((runTurns s as).skill_progression dim).length
        = (runTurns s as).conversation_analyses.length) ∧
    (∀ (u : String) (cfg : SessionConfig) (t : Nat)
        (as : List ConversationAnalysis) (dim : AssessmentDimension),
      ((runTurns (newSession u cfg t) as).skill_progression dim).length = as.length) := by
  have hstep : ∀ (s : LearningSession) (a : ConversationAnalysis)
      (dim : AssessmentDimension),
      ((process_turn s a).1.skill_progression dim).length
        = (s.skill_progression dim).length + 1 := by
    intro s a dim
    rw [process_turn_skill_progression]
    simp
  have hinv : ∀ (as : List ConversationAnalysis) (s : LearningSession),
      (∀ d, (s.skill_progression d).length = s.conversation_analyses.length) →
      ∀ d, ((runTurns s as).skill_progression d).length
        = (runTurns s as).conversation_analyses.length := by
    intro as
    induction as with
    | nil => intro s h d; exact h d
    | cons a as ih =>
        intro s h d
        rw [runTurns_cons]
        refine ih _ ?_ d
        intro d2
        rw [hstep, process_turn_analyses, h d2]
        simp
  refine ⟨fun u cfg t dim => rfl, ?_, ?_, ?_⟩
  · intro s a dim
    refine ⟨hstep s a dim, ?_⟩
    rw [process_turn_analyses]
    simp
  · intro s as dim h
    exact hinv as s h dim
  · intro u cfg t as dim
    rw [hinv as (newSession u cfg t) (fun d => rfl) dim,
      runTurns_analyses_length]
    simp [newSession]

/-- Witness for C6: the invariant-propagation component at a concrete fresh
session and a single turn. -/
theorem claim_C6_skill_progression_lengths_witness :
    ((runTurns (newSession "u" demoConfig 0)
        [demoAnalysis 3]).skill_progression .DISCOVERY_QUESTIONS).length
      = (runTurns (newSession "u" demoConfig 0)
          [demoAnalysis 3]).conversation_analyses.length :=
  claim_C6_skill_progression_lengths.2.2.1 (newSession "u" demoConfig 0)
    [demoAnalysis 3] .DISCOVERY_QUESTIONS (fun _ => rfl)

/-! ### Claims C7, C8, C9 -/

/-- A config with out-of-range difficulty and an explicitly empty
objectives list. -/
def badConfig : SessionConfig :=
  { scenario_type := none, prospect_persona := none,
    difficulty_level := some 99, learning_objectives := some [] }

/-- **C7** (corrected): the claim as stated is false — `start_learning_session`
performs no validation: a config with difficulty 99 and an explicitly empty
objectives list produces (without any error) an active session whose
difficulty is 99 and whose objectives list is empty. -/
theorem claim_C7_counterexample :
    ((start_learning_session ServiceState.init "u" badConfig 0).1.active_sessions
        (makeSessionId "u" 0)).map
      (fun s => (s.difficulty_level, s.learning_objectives))
      = some (99, []) := by
  decide

/-- **C7** (amended): `start_learning_session` never rejects a config; the
stored session's difficulty is exactly the supplied value (2 when the key is
absent) with no clamping, and the fixed default objective triple is
substituted only when the `learning_objectives` key is absent — an explicitly
empty list is stored empty, so sessions with out-of-range difficulty or empty
objectives can exist. -/
theorem claim_C7_no_validation :
    ∀ (st : ServiceState) (u : String) (cfg : SessionConfig) (t : Nat),
      ((start_learning_session st u cfg t).1.active_sessions (makeSessionId u t)
        = some (newSession u cfg t)) ∧
      (newSession u cfg t).difficulty_level = cfg.difficulty_level.getD 2 ∧
      (newSession u cfg t).learning_objectives
        = cfg.learning_objectives.getD defaultObjectives ∧
      (cfg.learning_objectives = some [] →
        (newSession u cfg t).learning_objectives = []) ∧
      (cfg.learning_objectives = none →
        (newSession u cfg t).learning_objectives = defaultObjectives) := by
  intro st u cfg t
  refine ⟨by simp [start_learning_session], rfl, rfl, ?_, ?_⟩
  · intro h
    show cfg.learning_objectives.getD defaultObjectives = []
    rw [h]
    rfl
  · intro h
    show cfg.learning_objectives.getD defaultObjectives = defaultObjectives
    rw [h]
    rfl

/-- Witness for C7: the explicitly-empty objectives list is stored empty. -/
theorem claim_C7_no_validation_witness :
    (newSession "u" badConfig 0).learning_objectives = [] :=
  (claim_C7_no_validation ServiceState.init "u" badConfig 0).2.2.2.1 rfl

/-- **C8** (confirmed): a successful `end_learning_session` stamps `end_time`,
removes the session from the active map, appends it to the user's history
list, and a second call with the same id fails with the session-not-found
error (idempotent-absent, not idempotent-success). -/
theorem claim_C8_end_session :
    ∀ (st : ServiceState) (sid : String) (now now2 : Nat) (s : LearningSession),
      st.active_sessions sid = some s →
      ∃ st2 s2, end_learning_session st sid now = .ok (st2, s2) ∧
        s2 = { s with end_time := some now } ∧
        st2.active_sessions sid = none ∧
        st2.session_history s.user_id = st.session_history s.user_id ++ [s2] ∧
        end_learning_session st2 sid now2 = .error "Session not found" := by
  intro st sid now now2 s h
  simp only [end_learning_session, h]
  refine ⟨_, _, rfl, rfl, ?_, ?_, ?_⟩
  · simp
  · simp
  · simp

/-- Witness for C8: starting then ending a concrete session, the repeat end
call fails with the session-not-found error. -/
theorem claim_C8_end_session_witness :
    ∃ st2 s2,
      end_learning_session
          (start_learning_session ServiceState.init "u" demoConfig 0).1
          (makeSessionId "u" 0) 5 = .ok (st2, s2) ∧
      end_learning_session st2 (makeSessionId "u" 0) 6
        = .error "Session not found" := by
  obtain ⟨st2, s2, h1, -, -, -, h5⟩ :=
    claim_C8_end_session (start_learning_session ServiceState.init "u" demoConfig 0).1
      (makeSessionId "u" 0) 5 6 (newSession "u" demoConfig 0)
      (by simp [start_learning_session])
  exact ⟨st2, s2, h1, h5⟩

/-- **C9** (corrected): the claim as stated is false — two successive start
calls by the same user within the same integer second generate the same
session id. -/
theorem claim_C9_counterexample :
    (start_learning_session ServiceState.init "u" demoConfig 100).2
      = (start_learning_session
          (start_learning_session ServiceState.init "u" demoConfig 100).1
          "u" demoConfig 100).2 := rfl

/-- **C9** (amended): the generated session id is exactly
`"session_" ++ user_id ++ "_" ++ str(int(timestamp))`, so it coincides for
any two calls sharing the user id and the integer-second timestamp, and the
second same-user same-second start overwrites the first session in the
active map. -/
theorem claim_C9_session_ids :
    (∀ (st : ServiceState) (u : String) (cfg : SessionConfig) (t : Nat),
      (start_learning_session st u cfg t).2 = makeSessionId u t) ∧
    (∀ (u1 u2 : String) (t1 t2 : Nat), u1 = u2 → t1 = t2 →
      makeSessionId u1 t1 = makeSessionId u2 t2) ∧
    (∀ (st : ServiceState) (u : String) (cfg1 cfg2 : SessionConfig) (t : Nat),
      (start_learning_session (start_learning_session st u cfg1 t).1
          u cfg2 t).1.active_sessions (makeSessionId u t)
        = some (newSession u cfg2 t)) := by
  refine ⟨fun st u cfg t => rfl, ?_, ?_⟩
  · intro u1 u2 t1 t2 h1 h2
    rw [h1, h2]
  · intro st u cfg1 cfg2 t
    simp [start_learning_session]

/-- Witness for C9: the id equality at user "u" and timestamp 100. -/
theorem claim_C9_session_ids_witness :
    makeSessionId "u" 100 = makeSessionId "u" 100 :=
  claim_C9_session_ids.2.1 "u" "u" 100 100 rfl rfl

end VoiceSalesTrainer
